import Mathlib

/-!
Shallow embedding of the two prototype voice-assistant servers of this
repository ("Ristorante Al Nuovo Baffone"): the single-handler variant in
`server.js` and the two-handler variant (the unnamed single-file prototype
with `/voice` and `/gather` endpoints).  Both keep an in-memory map from a
Twilio call identifier to a conversation history of chat turns, call an
external chat-completion backend and a text-to-speech backend, store the
synthesized audio as a file, and answer each webhook with a TwiML document.

External effects are embedded explicitly:
* the chat backend is an oracle `List Turn → Option String` (`none` models a
  thrown/failed request);
* the TTS backend together with the file write that immediately follows it
  is an oracle `String → Option (List Nat)` (`none` models a failure of
  either step — in the source both sit in the same `try` block, and in
  `server.js` both are equally unhandled);
* `uuidv4()` is modelled as an injective function of a monotonically
  increasing freshness counter carried in the state — the only property of
  a v4 UUID the code relies on is that each draw is a fresh distinct token;
* a handler that throws with no `catch` (possible only in `server.js`,
  which has no error handling) returns `none` in place of a response
  document: the webhook gets no well-formed body.
-/

/-- Role of a chat turn, as the JS string roles system / user / assistant. -/
inductive Role where
  | system
  | user
  | assistant
deriving DecidableEq, Repr

/-- One conversation turn: a role plus utterance text. -/
structure Turn where
  role : Role
  content : String
deriving DecidableEq, Repr

/-- Per-call session state: the conversation history and the diagnostic
reference to the last audio artifact (absent in `server.js`, whose session
is the bare history array; there `lastAudio` simply stays `none`). -/
structure Session where
  history : List Turn
  lastAudio : Option String := none
deriving DecidableEq, Repr

/-- The session registry: an insertion-ordered association list keyed by the
call identifier, modelling both the plain object of `server.js` and the
`Map` of the two-handler prototype. -/
abbrev SessList := List (String × Session)

/-- Lookup in the registry (JS property access / `Map.get`). -/
def lookupS : SessList → String → Option Session
  | [], _ => none
  | (k', v) :: t, k => if k' = k then some v else lookupS t k

/-- JS assignment / `Map.set`: replace the binding if the key is present,
otherwise append a new binding. -/
def updateS : SessList → String → Session → SessList
  | [], k, v => [(k, v)]
  | (k', v') :: t, k, v =>
      if k' = k then (k, v) :: t else (k', v') :: updateS t k v

/-- Model of `uuidv4()` as a function of the freshness counter: only the
freshness (injectivity) of the generated token matters to the code. -/
def uuid (n : Nat) : String :=
  "id-" ++ String.mk (List.replicate (n + 1) 'u')

/-- Bytes of an audio payload (a Node `Buffer`). -/
abbrev Bytes := List Nat

/-- Whole-process state: the session registry, the files written so far
(path ↦ bytes, paths relative to the process working directory), and the
freshness counter feeding `uuid`. -/
structure St where
  sessions : SessList := []
  files : List (String × Bytes) := []
  ctr : Nat := 0
deriving DecidableEq, Repr

/-- Draw a fresh uuid from the state (one call of `uuidv4()`). -/
def freshUuid (st : St) : String × St :=
  (uuid st.ctr, { st with ctr := st.ctr + 1 })

/-- An audio artifact as produced by `saveAudioBuffer` of the two-handler
prototype: fresh id, file name `id.mp3`, file path under `public/audio`,
the stored bytes, and the public URL `BASE_URL/audio/filename`. -/
structure StoredArtifact where
  id : String
  filename : String
  filepath : String
  bytes : Bytes
  publicRef : String
deriving DecidableEq, Repr

/-- The prototype's `saveAudioBuffer(buffer)`: generate a fresh id with
`uuidv4()`, persist the buffer at `public/audio/<id>.mp3`, and return the
public URL built from the configured base address.  The freshness counter
is threaded explicitly. -/
def saveAudioBuffer (baseUrl : String) (buffer : Bytes) (ctr : Nat) :
    StoredArtifact × Nat :=
  let id := uuid ctr
  let filename := id ++ ".mp3"
  ({ id := id
     filename := filename
     filepath := "public/audio/" ++ filename
     bytes := buffer
     publicRef := baseUrl ++ "/audio/" ++ filename }, ctr + 1)

theorem uuid_length (n : Nat) : (uuid n).length = 3 + (n + 1) := by
  simp [uuid, String.length]
  omega

theorem uuid_injective : Function.Injective uuid := by
  intro n m h
  have := congrArg String.length h
  simpa [uuid_length] using this

/-- The claim C8 theorem below speaks about two consecutive invocations of
the store; this helper names the second invocation's inputs. -/
def saveTwice (baseUrl : String) (buffer : Bytes) (ctr : Nat) :
    StoredArtifact × StoredArtifact :=
  let r1 := saveAudioBuffer baseUrl buffer ctr
  let r2 := saveAudioBuffer baseUrl buffer r1.2
  (r1.1, r2.1)

/-- JS `a || b` on an optional string: the empty string is falsy. -/
def jsOr (o : Option String) (d : String) : String :=
  match o with
  | none => d
  | some s => if s = "" then d else s

/-- Body of a Twilio webhook POST as both `/voice` handlers read it. -/
structure VoiceReq where
  CallSid : Option String := none
  SpeechResult : Option String := none
deriving Repr

/-- Body of a Twilio webhook POST as the `/gather` handler reads it. -/
structure GatherReq where
  CallSid : Option String := none
  SpeechResult : Option String := none
  TranscriptionText : Option String := none
deriving Repr

/-- The chat-completion backend call (`openaiChatReply` /
`openai.chat.completions.create`): full ordered history in, reply text out;
`none` models a failed or timed-out request (a thrown promise). -/
abbrev ChatOracle := List Turn → Option String

/-- The text-to-speech backend call together with the file write that
immediately follows it (`openaiTextToSpeech` + `saveAudioBuffer` write /
`openai.audio.speech.create` + `fs.writeFile`): text in, audio bytes out;
`none` models a failure of either step — in the prototype both sit inside
one `try` block, in `server.js` both are equally unhandled. -/
abbrev TtsOracle := String → Option Bytes

/-- One instruction of a TwiML response document; only the structure the
handlers emit is modelled (verb plus the attribute/content the code sets):
a spoken literal, an audio playback by URL, a speech-capture instruction
with its re-entry action and optional nested prompt, and hangup. -/
inductive Verb where
  | say (text : String)
  | play (url : String)
  | gather (action : String) (prompt : Option String)
  | hangup
deriving DecidableEq, Repr

/-- A TwiML response document: the ordered list of its instructions. -/
abbrev TwiML := List Verb

/-- JS `if (!sessions[sid]) sessions[sid] = {history:[persona]}` /
`if (!sessions.has(sid)) sessions.set(sid, {history:[persona]})`. -/
def ensureSession (l : SessList) (k : String) (persona : Turn) : SessList :=
  match lookupS l k with
  | some _ => l
  | none => updateS l k { history := [persona] }

/-- JS `session.history.push(turn)` (no-op on an absent session; the
handlers only call it right after `ensureSession`). -/
def appendTurn (l : SessList) (k : String) (t : Turn) : SessList :=
  match lookupS l k with
  | none => l
  | some s => updateS l k { s with history := s.history ++ [t] }

/-- JS `session.lastAudio = url`. -/
def setLastAudio (l : SessList) (k : String) (url : String) : SessList :=
  match lookupS l k with
  | none => l
  | some s => updateS l k { s with lastAudio := some url }

/-- The history of a call's session (empty when no session exists). -/
def historyOf (l : SessList) (k : String) : List Turn :=
  match lookupS l k with
  | some s => s.history
  | none => []

/-- The `server.js` persona template (its session seed system message). -/
def sjsPromptText : String :=
  "\nSei \"Assistente Baffone\", un'assistente virtuale gentile e professionale del \"Ristorante Al Nuovo Baffone\".\nParli sempre in italiano, con voce femminile, accogliente e cortese.\nTi occupi di rispondere alle domande dei clienti, prendere prenotazioni e dare informazioni su orari, menù e servizi.\nMantieni sempre uno stile naturale e caloroso, come una cameriera esperta che parla con i clienti.\n"

/-- The persona turn seeded into every `server.js` session. -/
def sjsPersonaTurn : Turn := { role := Role.system, content := sjsPromptText }

/-- The fixed Say literal of the `server.js` TwiML response. -/
def sjsGreetingSay : String :=
  "Buongiorno! Sono l'assistente virtuale del Ristorante Al Nuovo Baffone."

/-- PROMPT_TEMPLATE of the two-handler prototype. -/
def PROMPT_TEMPLATE : String :=
  "\nSei NuovoBaffoneAI, l'assistente vocale del Ristorante Al Nuovo Baffone (Via Roma 27, Frosinone).\nTono: cortese, amichevole e professionale, risposte brevi.\nObiettivi: accogliere il cliente, rispondere su orari/menu/servizi e raccogliere prenotazioni.\nSe il cliente vuole prenotare, chiedi nome, numero di persone, data e orario.\nNon inventare informazioni; se non sei sicuro, proponi di verificare con lo staff.\n"

/-- The persona turn seeded into every prototype session. -/
def protoPersonaTurn : Turn := { role := Role.system, content := PROMPT_TEMPLATE }

/-- The fixed literal greeting of the prototype `/voice` handler. -/
def protoGreetingText : String :=
  "Buongiorno, grazie per aver chiamato il Ristorante Al Nuovo Baffone. Come posso aiutarla oggi?"

/-- Nested Gather prompt of the prototype `/voice` response. -/
def protoVoicePrompt : String :=
  "Le lascio la possibilità di parlarmi dopo il segnale. Parli quando è pronto."

/-- Trailing Say of the prototype `/voice` response when Gather times out. -/
def protoNoReplyText : String := "Non ho ricevuto risposta. Arrivederci."

/-- Spoken error literal of both prototype catch branches. -/
def protoErrorText : String := "Si è verificato un errore. Riprovare più tardi."

/-- Terminal fallback document built in both prototype catch branches:
only a spoken apology and a hangup. -/
def protoErrorDoc : TwiML := [Verb.say protoErrorText, Verb.hangup]

/-- The fixed fallback reply when chat generation fails in `/gather`. -/
def protoFallbackText : String := "Mi dispiace, non ho compreso. Può ripetere?"

/-- Nested Gather prompt of the prototype `/gather` response. -/
def protoGatherPrompt : String := "Posso ancora aiutarla?"

/-- Trailing Say of the prototype `/gather` response when Gather times out. -/
def protoByeText : String := "Grazie! Arrivederci."

/-- Call-identifier resolution of both `/voice` handlers:
`req.body.CallSid || uuidv4()` — the uuid draw happens (and bumps the
freshness counter) only when the field is missing or empty. -/
def voiceResolveSid (o : Option String) (st : St) : String × St :=
  match o with
  | some s => if s = "" then freshUuid st else (s, st)
  | none => freshUuid st

/-- Call-identifier resolution of the `/gather` handler:
`req.body.CallSid || 'unknown'` — a fixed constant fallback. -/
def gatherResolveSid (o : Option String) : String :=
  match o with
  | some s => if s = "" then "unknown" else s
  | none => "unknown"

/-- The recognized-speech text the `/gather` handler records:
`req.body.SpeechResult || req.body.TranscriptionText || ''`. -/
def gatherSpeech (req : GatherReq) : String :=
  jsOr req.SpeechResult (jsOr req.TranscriptionText "")

/-- The `server.js` POST `/voice` handler.  The whole body is one `async`
function with no try/catch: a failed chat or TTS/write call rejects the
promise and no response document is ever sent — modelled as a `none`
document with the state mutations performed so far retained.  The written
artifact file `./audio-<uuid>.mp3` is recorded under its name relative to
the working directory, as the static route (root ".") resolves it. -/
def sjsPostVoice (baseUrl : String) (chat : ChatOracle) (tts : TtsOracle)
    (req : VoiceReq) (st : St) : Option TwiML × St :=
  let r := voiceResolveSid req.CallSid st
  let callSid := r.1
  let st := r.2
  let userSpeech := req.SpeechResult.getD ""
  let st := { st with sessions := ensureSession st.sessions callSid sjsPersonaTurn }
  let st :=
    if userSpeech = "" then st
    else { st with sessions := appendTurn st.sessions callSid { role := Role.user, content := userSpeech } }
  match chat (historyOf st.sessions callSid) with
  | none => (none, st)
  | some aiText =>
    let st := { st with sessions := appendTurn st.sessions callSid { role := Role.assistant, content := aiText } }
    let f := freshUuid st
    let st := f.2
    let fname := "audio-" ++ f.1 ++ ".mp3"
    match tts aiText with
    | none => (none, st)
    | some buffer =>
      let st := { st with files := st.files ++ [(fname, buffer)] }
      (some [Verb.say sjsGreetingSay,
             Verb.play (baseUrl ++ "/audio/" ++ fname),
             Verb.gather "/voice" none], st)

/-- The prototype POST `/voice` handler: resolve/seed the session, then
synthesize the fixed greeting (no chat call at all); on TTS/store failure
the catch branch answers with the terminal error document. -/
def protoPostVoice (baseUrl : String) (tts : TtsOracle) (req : VoiceReq)
    (st : St) : Option TwiML × St :=
  let r := voiceResolveSid req.CallSid st
  let callSid := r.1
  let st := r.2
  let st := { st with sessions := ensureSession st.sessions callSid protoPersonaTurn }
  match tts protoGreetingText with
  | none => (some protoErrorDoc, st)
  | some buffer =>
    let sv := saveAudioBuffer baseUrl buffer st.ctr
    let a := sv.1
    let st := { st with ctr := sv.2, files := st.files ++ [(a.filepath, a.bytes)] }
    let st := { st with sessions := setLastAudio st.sessions callSid a.publicRef }
    (some [Verb.play a.publicRef,
           Verb.gather "/gather" (some protoVoicePrompt),
           Verb.say protoNoReplyText,
           Verb.hangup], st)

/-- The prototype POST `/gather` handler: resolve/seed the session, always
append the caller turn, try the chat backend (on failure keep the fixed
fallback reply and append nothing), then synthesize the reply; on TTS/store
failure answer with the terminal error document. -/
def protoPostGather (baseUrl : String) (chat : ChatOracle) (tts : TtsOracle)
    (req : GatherReq) (st : St) : Option TwiML × St :=
  let callSid := gatherResolveSid req.CallSid
  let st := { st with sessions := ensureSession st.sessions callSid protoPersonaTurn }
  let st := { st with sessions := appendTurn st.sessions callSid { role := Role.user, content := gatherSpeech req } }
  let g :=
    match chat (historyOf st.sessions callSid) with
    | none => (protoFallbackText, st)
    | some t =>
        (t, { st with sessions := appendTurn st.sessions callSid { role := Role.assistant, content := t } })
  let aiReply := g.1
  let st := g.2
  match tts aiReply with
  | none => (some protoErrorDoc, st)
  | some buffer =>
    let sv := saveAudioBuffer baseUrl buffer st.ctr
    let a := sv.1
    let st := { st with ctr := sv.2, files := st.files ++ [(a.filepath, a.bytes)] }
    let st := { st with sessions := setLastAudio st.sessions callSid a.publicRef }
    (some [Verb.play a.publicRef,
           Verb.gather "/gather" (some protoGatherPrompt),
           Verb.say protoByeText,
           Verb.hangup], st)

/-- One inbound protocol event of the `server.js` variant (its only
webhook is `/voice`), carrying the backend outcomes of that round. -/
inductive SjsEvent where
  | voice (req : VoiceReq) (chat : ChatOracle) (tts : TtsOracle)

/-- State transition of one `server.js` event. -/
def sjsStep (baseUrl : String) (st : St) : SjsEvent → St
  | SjsEvent.voice req chat tts => (sjsPostVoice baseUrl chat tts req st).2

/-- Run a sequence of `server.js` events in arrival order. -/
def sjsRun (baseUrl : String) : List SjsEvent → St → St
  | [], st => st
  | e :: es, st => sjsRun baseUrl es (sjsStep baseUrl st e)

/-- One inbound protocol event of the two-handler prototype. -/
inductive ProtoEvent where
  | voice (req : VoiceReq) (tts : TtsOracle)
  | gather (req : GatherReq) (chat : ChatOracle) (tts : TtsOracle)

/-- State transition of one prototype event. -/
def protoStep (baseUrl : String) (st : St) : ProtoEvent → St
  | ProtoEvent.voice req tts => (protoPostVoice baseUrl tts req st).2
  | ProtoEvent.gather req chat tts => (protoPostGather baseUrl chat tts req st).2

/-- Run a sequence of prototype events in arrival order. -/
def protoRun (baseUrl : String) : List ProtoEvent → St → St
  | [], st => st
  | e :: es, st => protoRun baseUrl es (protoStep baseUrl st e)

/-- Lookup of a stored file by path. -/
def lookupFile : List (String × Bytes) → String → Option Bytes
  | [], _ => none
  | (k', v) :: t, k => if k' = k then some v else lookupFile t k

/-- GET `/audio/<name>` of `server.js`, modelled from the documented
behavior of the express static middleware it mounts:
`app.use("/audio", express.static("."))` resolves `<name>` against the
static root — which `server.js` sets to ".", the process working
directory — and serves that file's bytes.  The working directory is the
`files` listing of the state (the directory the server writes its
`./audio-<uuid>.mp3` artifacts into, and where its own sources live). -/
def sjsAudioGet (st : St) (name : String) : Option Bytes :=
  lookupFile st.files name

/-! Registry lemmas. -/

theorem lookupS_updateS_self (l : SessList) (k : String) (v : Session) :
    lookupS (updateS l k v) k = some v := by
  induction l with
  | nil => simp [updateS, lookupS]
  | cons p t ih =>
      obtain ⟨k', v'⟩ := p
      by_cases h : k' = k
      · simp [updateS, lookupS, h]
      · simp [updateS, lookupS, h, ih]

theorem lookupS_updateS_ne (l : SessList) (k k' : String) (v : Session)
    (h : k' ≠ k) : lookupS (updateS l k v) k' = lookupS l k' := by
  induction l with
  | nil => simp [updateS, lookupS, h.symm]
  | cons p t ih =>
      obtain ⟨k₀, v₀⟩ := p
      by_cases h0 : k₀ = k
      · subst h0
        simp [updateS, lookupS, h.symm]
      · simp [updateS, lookupS, h0, ih]

theorem mem_updateS {l : SessList} {k : String} {v : Session}
    {p : String × Session} (h : p ∈ updateS l k v) : p = (k, v) ∨ p ∈ l := by
  induction l with
  | nil => simpa [updateS] using h
  | cons q t ih =>
      obtain ⟨k₀, v₀⟩ := q
      by_cases h0 : k₀ = k
      · simp only [updateS, if_pos h0, List.mem_cons] at h
        rcases h with h | h
        · exact Or.inl h
        · exact Or.inr (List.mem_cons_of_mem _ h)
      · simp only [updateS, if_neg h0, List.mem_cons] at h
        rcases h with h | h
        · exact Or.inr (by simp [h])
        · rcases ih h with h' | h'
          · exact Or.inl h'
          · exact Or.inr (List.mem_cons_of_mem _ h')

theorem lookupS_mem {l : SessList} {k : String} {s : Session}
    (h : lookupS l k = some s) : (k, s) ∈ l := by
  induction l with
  | nil => simp [lookupS] at h
  | cons p t ih =>
      obtain ⟨k₀, v₀⟩ := p
      rw [lookupS] at h
      by_cases h0 : k₀ = k
      · subst h0
        rw [if_pos rfl] at h
        obtain rfl : v₀ = s := Option.some.inj h
        exact List.mem_cons_self _ _
      · rw [if_neg h0] at h
        exact List.mem_cons_of_mem _ (ih h)

theorem ensureSession_of_mem {l : SessList} {k : String} {s : Session}
    (p : Turn) (h : lookupS l k = some s) : ensureSession l k p = l := by
  simp [ensureSession, h]

theorem ensureSession_of_none {l : SessList} {k : String} (p : Turn)
    (h : lookupS l k = none) :
    ensureSession l k p = updateS l k { history := [p] } := by
  simp [ensureSession, h]

theorem appendTurn_of_mem {l : SessList} {k : String} {s : Session}
    (t : Turn) (h : lookupS l k = some s) :
    appendTurn l k t = updateS l k { s with history := s.history ++ [t] } := by
  simp [appendTurn, h]

theorem historyOf_setLastAudio (l : SessList) (k k' : String) (url : String) :
    historyOf (setLastAudio l k url) k' = historyOf l k' := by
  unfold setLastAudio
  cases h : lookupS l k with
  | none => rfl
  | some s =>
      by_cases hk : k' = k
      · subst hk
        simp [historyOf, lookupS_updateS_self, h]
      · simp [historyOf, lookupS_updateS_ne _ _ _ _ hk]

/-! Persona invariant (claim C1). -/

/-- Does a turn carry the system role. -/
def isSystemTurn (t : Turn) : Bool :=
  match t.role with
  | Role.system => true
  | _ => false

/-- Shape of one session: its history starts with the persona turn and
holds exactly one system-role turn. -/
def SessOk (persona : Turn) (s : Session) : Prop :=
  s.history.head? = some persona ∧ (s.history.filter isSystemTurn).length = 1

/-- Shape of the whole registry: every registered session is well shaped. -/
def RegOk (persona : Turn) (l : SessList) : Prop :=
  ∀ p ∈ l, SessOk persona p.2

theorem RegOk_updateS {persona : Turn} {l : SessList} {k : String}
    {v : Session} (hl : RegOk persona l) (hv : SessOk persona v) :
    RegOk persona (updateS l k v) := by
  intro p hp
  rcases mem_updateS hp with rfl | hp'
  · exact hv
  · exact hl p hp'

theorem SessOk_seed (persona : Turn) (hsys : isSystemTurn persona = true) :
    SessOk persona { history := [persona] } := by
  refine ⟨rfl, ?_⟩
  simp [List.filter, hsys]

theorem SessOk_push {persona : Turn} {s : Session} (t : Turn)
    (hs : SessOk persona s) (ht : isSystemTurn t = false) :
    SessOk persona { s with history := s.history ++ [t] } := by
  obtain ⟨h1, h2⟩ := hs
  refine ⟨?_, ?_⟩
  · cases hh : s.history with
    | nil => rw [hh] at h1; simp at h1
    | cons a as =>
        rw [hh] at h1
        simpa [hh] using h1
  · simp only [List.filter_append, List.length_append]
    simp [List.filter, ht, h2]

theorem RegOk_ensure {persona : Turn} {l : SessList} (k : String)
    (hl : RegOk persona l) (hsys : isSystemTurn persona = true) :
    RegOk persona (ensureSession l k persona) := by
  unfold ensureSession
  cases h : lookupS l k with
  | some s => exact hl
  | none => exact RegOk_updateS hl (SessOk_seed persona hsys)

theorem RegOk_appendTurn {persona : Turn} {l : SessList} (k : String)
    (t : Turn) (hl : RegOk persona l) (ht : isSystemTurn t = false) :
    RegOk persona (appendTurn l k t) := by
  unfold appendTurn
  cases h : lookupS l k with
  | none => exact hl
  | some s => exact RegOk_updateS hl (SessOk_push t (hl _ (lookupS_mem h)) ht)

theorem RegOk_setLastAudio {persona : Turn} {l : SessList} (k url : String)
    (hl : RegOk persona l) : RegOk persona (setLastAudio l k url) := by
  unfold setLastAudio
  cases h : lookupS l k with
  | none => exact hl
  | some s => exact RegOk_updateS hl (hl _ (lookupS_mem h))

theorem voiceResolveSid_sessions (o : Option String) (st : St) :
    (voiceResolveSid o st).2.sessions = st.sessions := by
  unfold voiceResolveSid freshUuid
  cases o with
  | none => rfl
  | some s => by_cases h : s = "" <;> simp [h]

theorem sjsPostVoice_RegOk {baseUrl : String} {chat : ChatOracle}
    {tts : TtsOracle} {req : VoiceReq} {st : St}
    (h : RegOk sjsPersonaTurn st.sessions) :
    RegOk sjsPersonaTurn (sjsPostVoice baseUrl chat tts req st).2.sessions := by
  unfold sjsPostVoice
  dsimp only
  have h1 : RegOk sjsPersonaTurn
      (ensureSession (voiceResolveSid req.CallSid st).2.sessions
        (voiceResolveSid req.CallSid st).1 sjsPersonaTurn) := by
    rw [voiceResolveSid_sessions]
    exact RegOk_ensure _ h rfl
  by_cases husp : req.SpeechResult.getD "" = "" <;>
    simp only [husp, if_pos, if_neg, if_true, if_false, ite_true, ite_false] <;>
    split <;>
    try split
  all_goals
    first
    | exact h1
    | exact RegOk_appendTurn _ _ h1 rfl
    | exact RegOk_appendTurn _ _ (RegOk_appendTurn _ _ h1 rfl) rfl

theorem protoPostVoice_RegOk {baseUrl : String} {tts : TtsOracle}
    {req : VoiceReq} {st : St} (h : RegOk protoPersonaTurn st.sessions) :
    RegOk protoPersonaTurn (protoPostVoice baseUrl tts req st).2.sessions := by
  unfold protoPostVoice
  dsimp only
  have h1 : RegOk protoPersonaTurn
      (ensureSession (voiceResolveSid req.CallSid st).2.sessions
        (voiceResolveSid req.CallSid st).1 protoPersonaTurn) := by
    rw [voiceResolveSid_sessions]
    exact RegOk_ensure _ h rfl
  split
  · exact h1
  · exact RegOk_setLastAudio _ _ h1

theorem protoPostGather_RegOk {baseUrl : String} {chat : ChatOracle}
    {tts : TtsOracle} {req : GatherReq} {st : St}
    (h : RegOk protoPersonaTurn st.sessions) :
    RegOk protoPersonaTurn (protoPostGather baseUrl chat tts req st).2.sessions := by
  unfold protoPostGather
  dsimp only
  have h2 : RegOk protoPersonaTurn
      (appendTurn (ensureSession st.sessions (gatherResolveSid req.CallSid) protoPersonaTurn)
        (gatherResolveSid req.CallSid)
        { role := Role.user, content := gatherSpeech req }) :=
    RegOk_appendTurn _ _ (RegOk_ensure _ h rfl) rfl
  split <;> split
  all_goals
    first
    | exact h2
    | exact RegOk_setLastAudio _ _ h2
    | exact RegOk_appendTurn _ _ h2 rfl
    | exact RegOk_setLastAudio _ _ (RegOk_appendTurn _ _ h2 rfl)

theorem protoStep_RegOk {baseUrl : String} {st : St} {e : ProtoEvent}
    (h : RegOk protoPersonaTurn st.sessions) :
    RegOk protoPersonaTurn (protoStep baseUrl st e).sessions := by
  cases e with
  | voice req tts => exact protoPostVoice_RegOk h
  | gather req chat tts => exact protoPostGather_RegOk h

theorem protoRun_RegOk {baseUrl : String} {es : List ProtoEvent} {st : St}
    (h : RegOk protoPersonaTurn st.sessions) :
    RegOk protoPersonaTurn (protoRun baseUrl es st).sessions := by
  induction es generalizing st with
  | nil => exact h
  | cons e t ih => exact ih (protoStep_RegOk h)

theorem sjsStep_RegOk {baseUrl : String} {st : St} {e : SjsEvent}
    (h : RegOk sjsPersonaTurn st.sessions) :
    RegOk sjsPersonaTurn (sjsStep baseUrl st e).sessions := by
  cases e with
  | voice req chat tts => exact sjsPostVoice_RegOk h

theorem sjsRun_RegOk {baseUrl : String} {es : List SjsEvent} {st : St}
    (h : RegOk sjsPersonaTurn st.sessions) :
    RegOk sjsPersonaTurn (sjsRun baseUrl es st).sessions := by
  induction es generalizing st with
  | nil => exact h
  | cons e t ih => exact ih (sjsStep_RegOk h)

/-- Claim C1: for every call identifier and every sequence of inbound
protocol events handled from a fresh process — in either variant — the
session registered under that identifier has the single system/persona
turn as its history head, inserted at session creation, and no handler
ever mutates, duplicates or re-inserts it: the history holds exactly one
system-role turn however many turns follow. -/
theorem C1_persona_turn_invariant :
    (∀ (baseUrl : String) (es : List ProtoEvent) (sid : String) (s : Session),
        lookupS (protoRun baseUrl es { }).sessions sid = some s →
        s.history.head? = some protoPersonaTurn ∧
        (s.history.filter isSystemTurn).length = 1) ∧
    (∀ (baseUrl : String) (es : List SjsEvent) (sid : String) (s : Session),
        lookupS (sjsRun baseUrl es { }).sessions sid = some s →
        s.history.head? = some sjsPersonaTurn ∧
        (s.history.filter isSystemTurn).length = 1) := by
  constructor
  · intro baseUrl es sid s hs
    have h0 : RegOk protoPersonaTurn (St.sessions { }) := by
      intro p hp
      exact absurd hp (List.not_mem_nil p)
    exact protoRun_RegOk h0 _ (lookupS_mem hs)
  · intro baseUrl es sid s hs
    have h0 : RegOk sjsPersonaTurn (St.sessions { }) := by
      intro p hp
      exact absurd hp (List.not_mem_nil p)
    exact sjsRun_RegOk h0 _ (lookupS_mem hs)

theorem C1_persona_turn_invariant_witness :
    (lookupS (protoRun "http://b"
        [ProtoEvent.voice { CallSid := some "CA1" } (fun _ => some [7])]
        { }).sessions "CA1" =
      some { history := [protoPersonaTurn],
             lastAudio := some "http://b/audio/id-u.mp3" }) ∧
    (({ history := [protoPersonaTurn],
        lastAudio := some "http://b/audio/id-u.mp3" } : Session).history.head? =
        some protoPersonaTurn ∧
     ((({ history := [protoPersonaTurn],
          lastAudio := some "http://b/audio/id-u.mp3" } : Session)).history.filter
          isSystemTurn).length = 1) :=
  ⟨by rfl,
   C1_persona_turn_invariant.1 "http://b"
     [ProtoEvent.voice { CallSid := some "CA1" } (fun _ => some [7])]
     "CA1" _ (by rfl)⟩

/-- Claim C8: two invocations of the artifact store — here consecutive,
threading the freshness counter — on identical input bytes still yield two
artifacts with distinct fresh ids and distinct public references, and each
publicRef is the configured external base address concatenated with the
artifact's URL path. -/
theorem C8_store_fresh_ids (baseUrl : String) (buffer : Bytes) (ctr : Nat) :
    (saveTwice baseUrl buffer ctr).1.id ≠ (saveTwice baseUrl buffer ctr).2.id ∧
    (saveTwice baseUrl buffer ctr).1.publicRef ≠
      (saveTwice baseUrl buffer ctr).2.publicRef ∧
    (saveTwice baseUrl buffer ctr).1.publicRef =
      baseUrl ++ "/audio/" ++ (saveTwice baseUrl buffer ctr).1.filename ∧
    (saveTwice baseUrl buffer ctr).2.publicRef =
      baseUrl ++ "/audio/" ++ (saveTwice baseUrl buffer ctr).2.filename ∧
    (saveTwice baseUrl buffer ctr).1.bytes = buffer ∧
    (saveTwice baseUrl buffer ctr).2.bytes = buffer := by
  refine ⟨?_, ?_, rfl, rfl, rfl, rfl⟩
  · intro h
    simp only [saveTwice, saveAudioBuffer] at h
    have := uuid_injective h
    omega
  · intro h
    simp only [saveTwice, saveAudioBuffer] at h
    have := congrArg String.length h
    simp only [String.length_append, uuid_length] at this
    omega

theorem lookupFile_append_isSome (l : List (String × Bytes)) (k : String)
    (v : Bytes) : (lookupFile (l ++ [(k, v)]) k).isSome = true := by
  induction l with
  | nil => simp [lookupFile]
  | cons p t ih =>
      obtain ⟨k', v'⟩ := p
      by_cases h : k' = k
      · simp [lookupFile, h]
      · simpa [lookupFile, h] using ih

/-- Claim C10: the server.js GET `/audio/<name>` route serves any file of
the process working directory — its static root is "." — not only stored
audio artifacts: every file in the directory listing is fetchable under
its name (first conjunct), and after a successful `/voice` round the
artifact the response plays is one of those served files (second
conjunct). -/
theorem C10_static_root_serves_cwd :
    (∀ (st : St) (name : String) (bytes : Bytes),
        lookupFile st.files name = some bytes →
        sjsAudioGet st name = some bytes) ∧
    (∀ (baseUrl : String) (chat : ChatOracle) (tts : TtsOracle)
        (req : VoiceReq) (st : St) (doc : TwiML),
        (sjsPostVoice baseUrl chat tts req st).1 = some doc →
        ∃ name, Verb.play (baseUrl ++ "/audio/" ++ name) ∈ doc ∧
          (sjsAudioGet (sjsPostVoice baseUrl chat tts req st).2 name).isSome = true) := by
  constructor
  · intro st name bytes h
    simpa [sjsAudioGet] using h
  · intro baseUrl chat tts req st doc h
    rcases hr : sjsPostVoice baseUrl chat tts req st with ⟨o, st2⟩
    rw [hr] at h
    dsimp only at h ⊢
    unfold sjsPostVoice at hr
    dsimp only at hr
    split at hr
    · injection hr with h1 h2
      rw [← h1] at h
      exact absurd h (by simp)
    · split at hr
      · injection hr with h1 h2
        rw [← h1] at h
        exact absurd h (by simp)
      · injection hr with h1 h2
        rw [← h1] at h
        obtain rfl : _ = doc := Option.some.inj h
        subst h2
        refine ⟨_, List.mem_cons_of_mem _ (List.mem_cons_self _ _), ?_⟩
        exact lookupFile_append_isSome _ _ _

/-- Claim C7 (amended): in the two-handler prototype every webhook
invocation returns a well-formed TwiML document — gateway and store
failures are caught inside the handlers and converted to either the
continue document or the terminal apology document, and never escape.
The server.js variant, by contrast, has no error handling: a failing
gateway call escapes its handler and no document is returned (see the
counterexample). -/
theorem C7_amended_proto_always_responds
    (baseUrl : String) (chat : ChatOracle) (tts : TtsOracle)
    (vreq : VoiceReq) (greq : GatherReq) (st st' : St) :
    ((protoPostVoice baseUrl tts vreq st).1).isSome ∧
    ((protoPostGather baseUrl chat tts greq st').1).isSome := by
  constructor
  · unfold protoPostVoice
    dsimp only
    split <;> simp
  · unfold protoPostGather
    dsimp only
    split <;> simp

/-- Claim C7 counterexample: in server.js a synthesis failure escapes the
handler — the webhook invocation yields no response document at all,
rather than a continue-with-fallback or terminate-with-apology document. -/
theorem C7_counterexample :
    (sjsPostVoice "http://b" (fun _ => some "Certo!") (fun _ => none)
      { CallSid := some "CB7", SpeechResult := some "pronto" } { }).1 = none := by
  rfl

/-- Witness for claim C10: with the working directory holding the server
source itself, GET `/audio/server.js` serves its bytes; and a successful
`/voice` round leaves its played artifact fetchable. -/
theorem C10_static_root_serves_cwd_witness :
    (lookupFile (St.files { files := [("server.js", [42])] }) "server.js" =
        some [42] ∧
      sjsAudioGet { files := [("server.js", [42])] } "server.js" = some [42]) ∧
    ((sjsPostVoice "http://b" (fun _ => some "Va bene") (fun _ => some [7])
        { CallSid := some "CAW", SpeechResult := some "pronto" } { }).1 =
        some [Verb.say sjsGreetingSay,
              Verb.play ("http://b" ++ "/audio/" ++ ("audio-" ++ uuid 0 ++ ".mp3")),
              Verb.gather "/voice" none] ∧
      ∃ name, Verb.play ("http://b" ++ "/audio/" ++ name) ∈
          [Verb.say sjsGreetingSay,
           Verb.play ("http://b" ++ "/audio/" ++ ("audio-" ++ uuid 0 ++ ".mp3")),
           Verb.gather "/voice" none] ∧
        (sjsAudioGet (sjsPostVoice "http://b" (fun _ => some "Va bene")
            (fun _ => some [7])
            { CallSid := some "CAW", SpeechResult := some "pronto" } { }).2
            name).isSome = true) :=
  ⟨⟨by rfl, C10_static_root_serves_cwd.1 { files := [("server.js", [42])] }
      "server.js" [42] (by rfl)⟩,
   ⟨by rfl, C10_static_root_serves_cwd.2 "http://b" (fun _ => some "Va bene")
      (fun _ => some [7])
      { CallSid := some "CAW", SpeechResult := some "pronto" } { } _ (by rfl)⟩⟩

/-! Equational descriptions of single handler rounds, used by the
functional-correctness claims below. -/

theorem historyOf_updateS_self (l : SessList) (k : String) (v : Session) :
    historyOf (updateS l k v) k = v.history := by
  simp [historyOf, lookupS_updateS_self]

theorem voiceResolveSid_some {sid : String} (st : St) (h : sid ≠ "") :
    voiceResolveSid (some sid) st = (sid, st) := by
  simp [voiceResolveSid, h]

theorem gatherResolveSid_some {sid : String} (h : sid ≠ "") :
    gatherResolveSid (some sid) = sid := by
  simp [gatherResolveSid, h]

/-- The assistant turns a chat outcome contributes to the history: one
turn on success, none on failure. -/
def assistantOpt (o : Option String) : List Turn :=
  match o with
  | none => []
  | some t => [{ role := Role.assistant, content := t }]

/-- One `/gather` round on an existing session `s` under a well-formed
call identifier: the history gains exactly the caller turn and, exactly on
chat success, one assistant turn; the response is the continue document on
synthesis success and the terminal error document on synthesis failure. -/
theorem protoPostGather_spec (baseUrl : String) (chat : ChatOracle)
    (tts : TtsOracle) (req : GatherReq) (st : St) (sid : String) (s : Session)
    (hsid : req.CallSid = some sid) (hne : sid ≠ "")
    (hs : lookupS st.sessions sid = some s) :
    historyOf (protoPostGather baseUrl chat tts req st).2.sessions sid =
      (s.history ++ [{ role := Role.user, content := gatherSpeech req }]) ++
        assistantOpt (chat (s.history ++
          [{ role := Role.user, content := gatherSpeech req }])) ∧
    (protoPostGather baseUrl chat tts req st).1 =
      some (match tts ((chat (s.history ++
              [{ role := Role.user, content := gatherSpeech req }])).getD
              protoFallbackText) with
        | none => protoErrorDoc
        | some _ =>
            [Verb.play (baseUrl ++ "/audio/" ++ (uuid st.ctr ++ ".mp3")),
             Verb.gather "/gather" (some protoGatherPrompt),
             Verb.say protoByeText, Verb.hangup]) := by
  unfold protoPostGather
  dsimp only
  rw [hsid, gatherResolveSid_some hne, ensureSession_of_mem _ hs,
      appendTurn_of_mem _ hs, historyOf_updateS_self]
  cases hc : chat (s.history ++ [{ role := Role.user, content := gatherSpeech req }]) with
  | none =>
      dsimp only
      simp only [Option.getD_none]
      cases ht : tts protoFallbackText with
      | none =>
          refine ⟨?_, rfl⟩
          simp [historyOf_updateS_self, assistantOpt]
      | some buffer =>
          refine ⟨?_, ?_⟩
          · simp [historyOf_setLastAudio, historyOf_updateS_self, assistantOpt]
          · simp [saveAudioBuffer]
  | some t =>
      dsimp only
      simp only [Option.getD_some]
      rw [appendTurn_of_mem _ (lookupS_updateS_self st.sessions sid _)]
      cases ht : tts t with
      | none =>
          refine ⟨?_, rfl⟩
          simp [historyOf_updateS_self, assistantOpt]
      | some buffer =>
          refine ⟨?_, ?_⟩
          · simp [historyOf_setLastAudio, historyOf_updateS_self, assistantOpt]
          · simp [saveAudioBuffer]

theorem historyOf_of_lookup {l : SessList} {k : String} {s : Session}
    (hs : lookupS l k = some s) : historyOf l k = s.history := by
  simp [historyOf, hs]

/-- A first-ever `/voice` round of the prototype (no session yet): the
session is created holding exactly the persona turn and nothing is ever
appended to it — the greeting is a fixed literal and the chat backend is
not part of this handler at all; the response continues with a capture
instruction on synthesis success and terminates on synthesis failure. -/
theorem protoPostVoice_first (baseUrl : String) (tts : TtsOracle)
    (req : VoiceReq) (st : St) (sid : String)
    (hsid : req.CallSid = some sid) (hne : sid ≠ "")
    (hnew : lookupS st.sessions sid = none) :
    historyOf (protoPostVoice baseUrl tts req st).2.sessions sid =
      [protoPersonaTurn] ∧
    (protoPostVoice baseUrl tts req st).1 =
      some (match tts protoGreetingText with
        | none => protoErrorDoc
        | some _ =>
            [Verb.play (baseUrl ++ "/audio/" ++ (uuid st.ctr ++ ".mp3")),
             Verb.gather "/gather" (some protoVoicePrompt),
             Verb.say protoNoReplyText, Verb.hangup]) := by
  unfold protoPostVoice
  dsimp only
  rw [hsid, voiceResolveSid_some st hne]
  dsimp only
  rw [ensureSession_of_none _ hnew]
  cases ht : tts protoGreetingText with
  | none =>
      refine ⟨?_, rfl⟩
      simp [historyOf_updateS_self]
  | some buffer =>
      refine ⟨?_, ?_⟩
      · simp [historyOf_setLastAudio, historyOf_updateS_self]
      · simp [saveAudioBuffer]

/-- A `/voice` round of the prototype on an existing session: nothing at
all is appended to the history (the handler only plays the fixed greeting
again). -/
theorem protoPostVoice_existing (baseUrl : String) (tts : TtsOracle)
    (req : VoiceReq) (st : St) (sid : String) (s : Session)
    (hsid : req.CallSid = some sid) (hne : sid ≠ "")
    (hs : lookupS st.sessions sid = some s) :
    historyOf (protoPostVoice baseUrl tts req st).2.sessions sid =
      s.history := by
  unfold protoPostVoice
  dsimp only
  rw [hsid, voiceResolveSid_some st hne]
  dsimp only
  rw [ensureSession_of_mem _ hs]
  cases ht : tts protoGreetingText with
  | none => exact historyOf_of_lookup hs
  | some buffer =>
      simp [historyOf_setLastAudio, historyOf_of_lookup hs]

/-- One `server.js` round on an existing session when the recognized
speech is empty or missing: NO caller turn is appended (the empty string
is falsy in JS); the chat backend still runs on the unchanged history and
its reply, on success, is appended. -/
theorem sjsPostVoice_spec_empty (baseUrl : String) (chat : ChatOracle)
    (tts : TtsOracle) (req : VoiceReq) (st : St) (sid : String) (s : Session)
    (hsid : req.CallSid = some sid) (hne : sid ≠ "")
    (hs : lookupS st.sessions sid = some s)
    (hu : req.SpeechResult.getD "" = "") :
    historyOf (sjsPostVoice baseUrl chat tts req st).2.sessions sid =
      s.history ++ assistantOpt (chat s.history) ∧
    (sjsPostVoice baseUrl chat tts req st).1 =
      (match chat s.history with
        | none => none
        | some aiText =>
            match tts aiText with
            | none => none
            | some _ =>
                some [Verb.say sjsGreetingSay,
                      Verb.play (baseUrl ++ "/audio/" ++
                        ("audio-" ++ uuid st.ctr ++ ".mp3")),
                      Verb.gather "/voice" none]) := by
  unfold sjsPostVoice
  dsimp only
  rw [hsid, voiceResolveSid_some st hne]
  dsimp only
  rw [ensureSession_of_mem _ hs, if_pos hu, historyOf_of_lookup hs]
  cases hc : chat s.history with
  | none =>
      refine ⟨?_, rfl⟩
      simp [historyOf_of_lookup hs, assistantOpt]
  | some aiText =>
      dsimp only
      rw [appendTurn_of_mem _ hs]
      cases ht : tts aiText with
      | none =>
          refine ⟨?_, rfl⟩
          simp [freshUuid, historyOf_updateS_self, assistantOpt]
      | some buffer =>
          refine ⟨?_, rfl⟩
          simp [freshUuid, historyOf_updateS_self, assistantOpt]

/-- One `server.js` round on an existing session when the recognized
speech is a non-empty string: exactly one caller turn with that text is
appended, then the chat reply (appended only on success). -/
theorem sjsPostVoice_spec_speech (baseUrl : String) (chat : ChatOracle)
    (tts : TtsOracle) (req : VoiceReq) (st : St) (sid : String) (s : Session)
    (hsid : req.CallSid = some sid) (hne : sid ≠ "")
    (hs : lookupS st.sessions sid = some s)
    (hu : req.SpeechResult.getD "" ≠ "") :
    historyOf (sjsPostVoice baseUrl chat tts req st).2.sessions sid =
      (s.history ++ [{ role := Role.user, content := req.SpeechResult.getD "" }]) ++
        assistantOpt (chat (s.history ++
          [{ role := Role.user, content := req.SpeechResult.getD "" }])) ∧
    (sjsPostVoice baseUrl chat tts req st).1 =
      (match chat (s.history ++
          [{ role := Role.user, content := req.SpeechResult.getD "" }]) with
        | none => none
        | some aiText =>
            match tts aiText with
            | none => none
            | some _ =>
                some [Verb.say sjsGreetingSay,
                      Verb.play (baseUrl ++ "/audio/" ++
                        ("audio-" ++ uuid st.ctr ++ ".mp3")),
                      Verb.gather "/voice" none]) := by
  unfold sjsPostVoice
  dsimp only
  rw [hsid, voiceResolveSid_some st hne]
  dsimp only
  rw [ensureSession_of_mem _ hs, if_neg hu, appendTurn_of_mem _ hs,
    historyOf_updateS_self]
  cases hc : chat (s.history ++
      [{ role := Role.user, content := req.SpeechResult.getD "" }]) with
  | none =>
      refine ⟨?_, rfl⟩
      simp [historyOf_updateS_self, assistantOpt]
  | some aiText =>
      dsimp only
      rw [appendTurn_of_mem _ (lookupS_updateS_self st.sessions sid _)]
      cases ht : tts aiText with
      | none =>
          refine ⟨?_, rfl⟩
          simp [freshUuid, historyOf_updateS_self, assistantOpt]
      | some buffer =>
          refine ⟨?_, rfl⟩
          simp [freshUuid, historyOf_updateS_self, assistantOpt]

/-- Claim C2 counterexample: in server.js, a first-ever inbound event with
no caller utterance still invokes Reply Generation and appends its reply —
afterwards the session history has length 2 (persona plus assistant), not
1, so the claim as stated fails on this variant. -/
theorem C2_counterexample :
    (historyOf (sjsPostVoice "http://b" (fun _ => some "Benvenuto!")
        (fun _ => some [3]) { CallSid := some "CA1" } { }).2.sessions
        "CA1").length = 2 ∧
    ¬ (historyOf (sjsPostVoice "http://b" (fun _ => some "Benvenuto!")
        (fun _ => some [3]) { CallSid := some "CA1" } { }).2.sessions
        "CA1").length = 1 :=
  ⟨rfl, fun h => absurd (h.symm.trans rfl) (by decide)⟩

/-- Claim C2 (amended): in the two-handler prototype, a first-ever inbound
`/voice` event for a callId appends no caller turn and does not invoke
Reply Generation at all (the handler takes no chat call): the reply is the
fixed literal greeting, synthesis is performed for that greeting, and
afterwards the session history has length 1 — the persona turn only.  The
server.js variant instead always consults Reply Generation and appends its
reply (see the counterexample). -/
theorem C2_amended_first_event_greeting (baseUrl : String) (tts : TtsOracle)
    (req : VoiceReq) (st : St) (sid : String) (buffer : Bytes)
    (hsid : req.CallSid = some sid) (hne : sid ≠ "")
    (hnew : lookupS st.sessions sid = none)
    (htts : tts protoGreetingText = some buffer) :
    (historyOf (protoPostVoice baseUrl tts req st).2.sessions sid).length = 1 ∧
    historyOf (protoPostVoice baseUrl tts req st).2.sessions sid =
      [protoPersonaTurn] ∧
    (protoPostVoice baseUrl tts req st).1 =
      some [Verb.play (baseUrl ++ "/audio/" ++ (uuid st.ctr ++ ".mp3")),
            Verb.gather "/gather" (some protoVoicePrompt),
            Verb.say protoNoReplyText, Verb.hangup] := by
  obtain ⟨h1, h2⟩ := protoPostVoice_first baseUrl tts req st sid hsid hne hnew
  refine ⟨by rw [h1]; rfl, h1, ?_⟩
  rw [h2, htts]

theorem C2_amended_first_event_greeting_witness :
    (({ CallSid := some "CA1" } : VoiceReq).CallSid = some "CA1" ∧
     "CA1" ≠ "" ∧
     lookupS (St.sessions { }) "CA1" = none ∧
     (fun _ : String => some [(7 : Nat)]) protoGreetingText = some [7]) ∧
    ((historyOf (protoPostVoice "http://b" (fun _ => some [7])
        { CallSid := some "CA1" } { }).2.sessions "CA1").length = 1 ∧
     historyOf (protoPostVoice "http://b" (fun _ => some [7])
        { CallSid := some "CA1" } { }).2.sessions "CA1" = [protoPersonaTurn] ∧
     (protoPostVoice "http://b" (fun _ => some [7])
        { CallSid := some "CA1" } { }).1 =
       some [Verb.play ("http://b" ++ "/audio/" ++ (uuid 0 ++ ".mp3")),
             Verb.gather "/gather" (some protoVoicePrompt),
             Verb.say protoNoReplyText, Verb.hangup]) :=
  ⟨⟨rfl, by decide, rfl, rfl⟩,
   C2_amended_first_event_greeting "http://b" (fun _ => some [7])
     { CallSid := some "CA1" } { } "CA1" [7] rfl (by decide) rfl rfl⟩

/-- Claim C3 counterexample: in server.js a Reply Generation failure is
not handled at all — the handler returns no document (no spoken fallback,
no capture instruction), so the claim as stated fails on this variant. -/
theorem C3_counterexample :
    (sjsPostVoice "http://b" (fun _ => none) (fun _ => some [5])
      { CallSid := some "CB3", SpeechResult := some "Vorrei prenotare" }
      { }).1 = none :=
  rfl

/-- Claim C3 (amended): in the two-handler prototype, when Reply
Generation fails the handler keeps the fixed fallback reply text, appends
no assistant turn (only the caller turn of the round) to the history, and
— the fallback synthesizing successfully — still returns a document with a
playback of the spoken fallback plus a continue-capture instruction, so
the call continues.  In server.js the failure instead escapes the handler
and no document is returned (see the counterexample). -/
theorem C3_amended_generation_failure_fallback (baseUrl : String)
    (chat : ChatOracle) (tts : TtsOracle) (req : GatherReq) (st : St)
    (sid : String) (s : Session) (buffer : Bytes)
    (hsid : req.CallSid = some sid) (hne : sid ≠ "")
    (hs : lookupS st.sessions sid = some s)
    (hchat : chat (s.history ++
      [{ role := Role.user, content := gatherSpeech req }]) = none)
    (htts : tts protoFallbackText = some buffer) :
    historyOf (protoPostGather baseUrl chat tts req st).2.sessions sid =
      s.history ++ [{ role := Role.user, content := gatherSpeech req }] ∧
    (protoPostGather baseUrl chat tts req st).1 =
      some [Verb.play (baseUrl ++ "/audio/" ++ (uuid st.ctr ++ ".mp3")),
            Verb.gather "/gather" (some protoGatherPrompt),
            Verb.say protoByeText, Verb.hangup] := by
  obtain ⟨h1, h2⟩ :=
    protoPostGather_spec baseUrl chat tts req st sid s hsid hne hs
  constructor
  · rw [h1, hchat]
    simp [assistantOpt]
  · rw [h2, hchat]
    dsimp only [Option.getD_none]
    rw [htts]

theorem C3_amended_generation_failure_fallback_witness :
    (({ CallSid := some "CW3", SpeechResult := some "Vorrei un tavolo" } :
        GatherReq).CallSid = some "CW3" ∧
     "CW3" ≠ "" ∧
     lookupS [("CW3", { history := [protoPersonaTurn] })] "CW3" =
       some { history := [protoPersonaTurn] } ∧
     (fun _ : List Turn => (none : Option String))
       ([protoPersonaTurn] ++
         [{ role := Role.user,
            content := gatherSpeech
              { CallSid := some "CW3",
                SpeechResult := some "Vorrei un tavolo" } }]) = none ∧
     (fun _ : String => some [(4 : Nat)]) protoFallbackText = some [4]) ∧
    (historyOf (protoPostGather "http://b"
        (fun _ => none) (fun _ => some [4])
        { CallSid := some "CW3", SpeechResult := some "Vorrei un tavolo" }
        { sessions := [("CW3", { history := [protoPersonaTurn] })] }).2.sessions
        "CW3" =
      [protoPersonaTurn] ++
        [{ role := Role.user,
           content := gatherSpeech
             { CallSid := some "CW3",
               SpeechResult := some "Vorrei un tavolo" } }] ∧
     (protoPostGather "http://b" (fun _ => none) (fun _ => some [4])
        { CallSid := some "CW3", SpeechResult := some "Vorrei un tavolo" }
        { sessions := [("CW3", { history := [protoPersonaTurn] })] }).1 =
      some [Verb.play ("http://b" ++ "/audio/" ++ (uuid 0 ++ ".mp3")),
            Verb.gather "/gather" (some protoGatherPrompt),
            Verb.say protoByeText, Verb.hangup]) :=
  ⟨⟨rfl, by decide, rfl, rfl, rfl⟩,
   C3_amended_generation_failure_fallback "http://b" (fun _ => none)
     (fun _ => some [4])
     { CallSid := some "CW3", SpeechResult := some "Vorrei un tavolo" }
     { sessions := [("CW3", { history := [protoPersonaTurn] })] }
     "CW3" { history := [protoPersonaTurn] } [4] rfl (by decide) rfl rfl rfl⟩

/-- Claim C4 counterexample: in server.js a Speech Synthesis failure after
a successful generation is unhandled — the handler returns no document at
all, neither an apology nor a termination instruction, so the claim as
stated fails on this variant. -/
theorem C4_counterexample :
    (sjsPostVoice "http://b" (fun _ => some "Certo, un tavolo per due.")
      (fun _ => none)
      { CallSid := some "CB4", SpeechResult := some "un tavolo" } { }).1 =
      none :=
  rfl

/-- Claim C4 (amended): in the two-handler prototype, when the Speech
Synthesis / artifact storage step fails after a successful generation the
returned document is exactly the terminal error document — one spoken
apology and a call-termination instruction, no playback instruction and no
capture instruction — and the single `try` block makes no second attempt.
The same terminal document is produced when the greeting synthesis of
`/voice` fails.  In server.js the failure instead escapes the handler and
no document at all is returned (see the counterexample). -/
theorem C4_amended_synthesis_failure_terminates :
    (∀ (baseUrl : String) (chat : ChatOracle) (tts : TtsOracle)
        (req : GatherReq) (st : St) (sid : String) (s : Session) (t : String),
        req.CallSid = some sid → sid ≠ "" →
        lookupS st.sessions sid = some s →
        chat (s.history ++
          [{ role := Role.user, content := gatherSpeech req }]) = some t →
        tts t = none →
        (protoPostGather baseUrl chat tts req st).1 = some protoErrorDoc) ∧
    (∀ (baseUrl : String) (tts : TtsOracle) (req : VoiceReq) (st : St),
        tts protoGreetingText = none →
        (protoPostVoice baseUrl tts req st).1 = some protoErrorDoc) ∧
    protoErrorDoc = [Verb.say protoErrorText, Verb.hangup] := by
  refine ⟨?_, ?_, rfl⟩
  · intro baseUrl chat tts req st sid s t hsid hne hs hchat htts
    obtain ⟨h1, h2⟩ :=
      protoPostGather_spec baseUrl chat tts req st sid s hsid hne hs
    rw [h2, hchat]
    dsimp only [Option.getD_some]
    rw [htts]
  · intro baseUrl tts req st htts
    unfold protoPostVoice
    dsimp only
    rw [htts]

theorem C4_amended_synthesis_failure_terminates_witness :
    (({ CallSid := some "CW4", SpeechResult := some "alle otto" } :
        GatherReq).CallSid = some "CW4" ∧
     "CW4" ≠ "" ∧
     lookupS [("CW4", { history := [protoPersonaTurn] })] "CW4" =
       some { history := [protoPersonaTurn] } ∧
     (fun _ : List Turn => some "Va bene, alle otto.")
       ([protoPersonaTurn] ++
         [{ role := Role.user,
            content := gatherSpeech
              { CallSid := some "CW4", SpeechResult := some "alle otto" } }]) =
       some "Va bene, alle otto." ∧
     (fun _ : String => (none : Option Bytes)) "Va bene, alle otto." = none) ∧
    ((protoPostGather "http://b" (fun _ => some "Va bene, alle otto.")
        (fun _ => none)
        { CallSid := some "CW4", SpeechResult := some "alle otto" }
        { sessions := [("CW4", { history := [protoPersonaTurn] })] }).1 =
      some protoErrorDoc ∧
     (protoPostVoice "http://b" (fun _ => none)
        { CallSid := some "CW4" } { }).1 = some protoErrorDoc) :=
  ⟨⟨rfl, by decide, rfl, rfl, rfl⟩,
   ⟨C4_amended_synthesis_failure_terminates.1 "http://b"
      (fun _ => some "Va bene, alle otto.") (fun _ => none)
      { CallSid := some "CW4", SpeechResult := some "alle otto" }
      { sessions := [("CW4", { history := [protoPersonaTurn] })] }
      "CW4" { history := [protoPersonaTurn] } "Va bene, alle otto."
      rfl (by decide) rfl rfl rfl,
    C4_amended_synthesis_failure_terminates.2.1 "http://b" (fun _ => none)
      { CallSid := some "CW4" } { } rfl⟩⟩

/-- Does a turn carry the caller (user) role. -/
def isUserTurn (t : Turn) : Bool :=
  match t.role with
  | Role.user => true
  | _ => false

/-- Claim C5 counterexample: one inbound protocol event (a prototype
`/voice` round) on callId CA5 grows that session's history by zero caller
turns — the history afterwards is the persona turn alone — refuting the
claim that every inbound event adds exactly one caller turn. -/
theorem C5_counterexample :
    (historyOf (protoRun "http://b"
        [ProtoEvent.voice { CallSid := some "CA5" } (fun _ => some [2])]
        { }).sessions "CA5").length = 1 ∧
    ((historyOf (protoRun "http://b"
        [ProtoEvent.voice { CallSid := some "CA5" } (fun _ => some [2])]
        { }).sessions "CA5").filter isUserTurn).length = 0 :=
  ⟨rfl, rfl⟩

/-- Claim C5 (amended): in the two-handler prototype the history is
append-only and grows per `/gather` event by exactly one caller turn plus,
exactly when generation succeeds, one assistant turn — the old history is
preserved verbatim as a prefix, never shrunk, reordered or modified —
while `/voice` events append no turns at all to an existing session. -/
theorem C5_amended_gather_growth :
    (∀ (baseUrl : String) (chat : ChatOracle) (tts : TtsOracle)
        (req : GatherReq) (st : St) (sid : String) (s : Session),
        req.CallSid = some sid → sid ≠ "" →
        lookupS st.sessions sid = some s →
        historyOf (protoPostGather baseUrl chat tts req st).2.sessions sid =
          (s.history ++ [{ role := Role.user, content := gatherSpeech req }]) ++
            assistantOpt (chat (s.history ++
              [{ role := Role.user, content := gatherSpeech req }]))) ∧
    (∀ (baseUrl : String) (tts : TtsOracle) (req : VoiceReq) (st : St)
        (sid : String) (s : Session),
        req.CallSid = some sid → sid ≠ "" →
        lookupS st.sessions sid = some s →
        historyOf (protoPostVoice baseUrl tts req st).2.sessions sid =
          s.history) := by
  constructor
  · intro baseUrl chat tts req st sid s hsid hne hs
    exact (protoPostGather_spec baseUrl chat tts req st sid s hsid hne hs).1
  · intro baseUrl tts req st sid s hsid hne hs
    exact protoPostVoice_existing baseUrl tts req st sid s hsid hne hs

theorem C5_amended_gather_growth_witness :
    (({ CallSid := some "CW5", SpeechResult := some "due persone" } :
        GatherReq).CallSid = some "CW5" ∧
     "CW5" ≠ "" ∧
     lookupS [("CW5", { history := [protoPersonaTurn] })] "CW5" =
       some { history := [protoPersonaTurn] }) ∧
    historyOf (protoPostGather "http://b" (fun _ => some "Perfetto.")
        (fun _ => some [6])
        { CallSid := some "CW5", SpeechResult := some "due persone" }
        { sessions := [("CW5", { history := [protoPersonaTurn] })] }).2.sessions
        "CW5" =
      ([protoPersonaTurn] ++
        [{ role := Role.user,
           content := gatherSpeech
             { CallSid := some "CW5", SpeechResult := some "due persone" } }]) ++
        assistantOpt ((fun _ : List Turn => some "Perfetto.")
          ([protoPersonaTurn] ++
            [{ role := Role.user,
               content := gatherSpeech
                 { CallSid := some "CW5",
                   SpeechResult := some "due persone" } }])) :=
  ⟨⟨rfl, by decide, rfl⟩,
   C5_amended_gather_growth.1 "http://b" (fun _ => some "Perfetto.")
     (fun _ => some [6])
     { CallSid := some "CW5", SpeechResult := some "due persone" }
     { sessions := [("CW5", { history := [protoPersonaTurn] })] }
     "CW5" { history := [protoPersonaTurn] } rfl (by decide) rfl⟩

/-- Claim C6 counterexample: in server.js an inbound event whose caller
utterance is present but equal to the empty string gets NO caller turn
appended (the empty string is falsy in `if (userSpeech)`): with the chat
backend failing, the session history stays the persona turn alone, with
zero caller turns, where the claim demands a recorded empty caller turn. -/
theorem C6_counterexample :
    historyOf (sjsPostVoice "http://b" (fun _ => none) (fun _ => some [9])
        { CallSid := some "CB6", SpeechResult := some "" } { }).2.sessions
        "CB6" = [sjsPersonaTurn] ∧
    ((historyOf (sjsPostVoice "http://b" (fun _ => none) (fun _ => some [9])
        { CallSid := some "CB6", SpeechResult := some "" } { }).2.sessions
        "CB6").filter isUserTurn).length = 0 :=
  ⟨rfl, rfl⟩

/-- Claim C6 (amended): in server.js a caller turn is appended exactly
when the recognized utterance is present AND non-empty (a present empty
string is treated like a missing one and skipped, not recorded); in the
prototype `/gather` handler a caller turn is always appended — with
exactly the received text, and with the empty string when the recognition
fields are missing (a missing result is tolerated as an empty utterance,
never an error). -/
theorem C6_amended_caller_turn_recording :
    (∀ (baseUrl : String) (chat : ChatOracle) (tts : TtsOracle)
        (req : VoiceReq) (st : St) (sid : String) (s : Session),
        req.CallSid = some sid → sid ≠ "" →
        lookupS st.sessions sid = some s →
        req.SpeechResult.getD "" = "" →
        historyOf (sjsPostVoice baseUrl chat tts req st).2.sessions sid =
          s.history ++ assistantOpt (chat s.history)) ∧
    (∀ (baseUrl : String) (chat : ChatOracle) (tts : TtsOracle)
        (req : VoiceReq) (st : St) (sid : String) (s : Session),
        req.CallSid = some sid → sid ≠ "" →
        lookupS st.sessions sid = some s →
        req.SpeechResult.getD "" ≠ "" →
        historyOf (sjsPostVoice baseUrl chat tts req st).2.sessions sid =
          (s.history ++
            [{ role := Role.user, content := req.SpeechResult.getD "" }]) ++
            assistantOpt (chat (s.history ++
              [{ role := Role.user, content := req.SpeechResult.getD "" }]))) ∧
    (∀ (baseUrl : String) (chat : ChatOracle) (tts : TtsOracle)
        (req : GatherReq) (st : St) (sid : String) (s : Session),
        req.CallSid = some sid → sid ≠ "" →
        lookupS st.sessions sid = some s →
        historyOf (protoPostGather baseUrl chat tts req st).2.sessions sid =
          (s.history ++
            [{ role := Role.user, content := gatherSpeech req }]) ++
            assistantOpt (chat (s.history ++
              [{ role := Role.user, content := gatherSpeech req }]))) ∧
    (∀ o : Option String, gatherSpeech { CallSid := o } = "") := by
  refine ⟨?_, ?_, ?_, fun o => rfl⟩
  · intro baseUrl chat tts req st sid s hsid hne hs hu
    exact (sjsPostVoice_spec_empty baseUrl chat tts req st sid s
      hsid hne hs hu).1
  · intro baseUrl chat tts req st sid s hsid hne hs hu
    exact (sjsPostVoice_spec_speech baseUrl chat tts req st sid s
      hsid hne hs hu).1
  · intro baseUrl chat tts req st sid s hsid hne hs
    exact (protoPostGather_spec baseUrl chat tts req st sid s hsid hne hs).1

theorem C6_amended_caller_turn_recording_witness :
    (({ CallSid := some "CW6", SpeechResult := some "" } :
        VoiceReq).CallSid = some "CW6" ∧
     "CW6" ≠ "" ∧
     lookupS [("CW6", { history := [sjsPersonaTurn] })] "CW6" =
       some { history := [sjsPersonaTurn] } ∧
     (({ CallSid := some "CW6", SpeechResult := some "" } :
        VoiceReq).SpeechResult.getD "") = "") ∧
    historyOf (sjsPostVoice "http://b" (fun _ => none) (fun _ => some [8])
        { CallSid := some "CW6", SpeechResult := some "" }
        { sessions := [("CW6", { history := [sjsPersonaTurn] })] }).2.sessions
        "CW6" =
      [sjsPersonaTurn] ++
        assistantOpt ((fun _ : List Turn => (none : Option String))
          [sjsPersonaTurn]) :=
  ⟨⟨rfl, by decide, rfl, rfl⟩,
   C6_amended_caller_turn_recording.1 "http://b" (fun _ => none)
     (fun _ => some [8]) { CallSid := some "CW6", SpeechResult := some "" }
     { sessions := [("CW6", { history := [sjsPersonaTurn] })] }
     "CW6" { history := [sjsPersonaTurn] } rfl (by decide) rfl rfl⟩

/-- Claim C9 counterexample: two distinct `/gather` requests that both
lack the call identifier are resolved to the same constant fallback
identifier — after handling both, the registry holds a single shared
session whose history interleaves both callers' turns, where the claim
demands that distinct such requests never share one session. -/
theorem C9_counterexample :
    (protoRun "http://b"
      [ProtoEvent.gather { SpeechResult := some "primo" }
         (fun _ => some "a") (fun _ => some [1]),
       ProtoEvent.gather { SpeechResult := some "secondo" }
         (fun _ => some "b") (fun _ => some [1])]
      { }).sessions.length = 1 ∧
    historyOf (protoRun "http://b"
      [ProtoEvent.gather { SpeechResult := some "primo" }
         (fun _ => some "a") (fun _ => some [1]),
       ProtoEvent.gather { SpeechResult := some "secondo" }
         (fun _ => some "b") (fun _ => some [1])]
      { }).sessions "unknown" =
      [protoPersonaTurn,
       { role := Role.user, content := "primo" },
       { role := Role.assistant, content := "a" },
       { role := Role.user, content := "secondo" },
       { role := Role.assistant, content := "b" }] :=
  ⟨rfl, rfl⟩

/-- Claim C9 (amended): a request missing the call identifier is never
rejected; both `/voice` handlers substitute a freshly generated identifier
(drawing from the uuid source, whose draws are pairwise distinct, so two
such requests get distinct sessions), but the `/gather` handler
substitutes the fixed identifier "unknown", under which all id-less
`/gather` requests share one session (see the counterexample). -/
theorem C9_amended_fallback_identifier :
    (∀ st : St, voiceResolveSid none st =
      (uuid st.ctr, { st with ctr := st.ctr + 1 })) ∧
    (∀ n m : Nat, n ≠ m → uuid n ≠ uuid m) ∧
    gatherResolveSid none = "unknown" := by
  refine ⟨fun st => rfl, ?_, rfl⟩
  intro n m hnm h
  exact hnm (uuid_injective h)

theorem C9_amended_fallback_identifier_witness :
    ((0 : Nat) ≠ 1) ∧
    (voiceResolveSid none { } =
      (uuid 0, { sessions := [], files := [], ctr := 1 }) ∧
     uuid 0 ≠ uuid 1 ∧
     gatherResolveSid none = "unknown") :=
  ⟨by decide,
   ⟨C9_amended_fallback_identifier.1 { },
    C9_amended_fallback_identifier.2.1 0 1 (by decide),
    C9_amended_fallback_identifier.2.2⟩⟩
